import Mathlib

/-!
Verification of the SIREN backend (src/backend/app.py): a serial reader
loop that parses comma-separated sensor lines and publishes the latest
reading into a shared snapshot served by an HTTP accessor.

Embedding notes:
- A serial iteration is driven by a `SerialEvent`: `noData` (`ser.in_waiting`
  falsy), `line s` (the decoded and stripped text returned by
  `ser.readline().decode().strip()`), or `deviceError` (an exception raised
  by the port access, read or decode).
- Python `int(...)` and `float(...)` applied to tokens are modelled by
  `pyInt` and `pyFloat` over the character list of the token, following
  the CPython accepted grammar for base-10 `int` and for `float` (surrounding
  whitespace, optional sign, underscore digit separators, decimal point,
  exponent, and the special spellings nan/inf/infinity case-insensitively).
  A finite float value is represented exactly as the decimal the token
  denotes, as a pair `finite m p` meaning `m * 10 ^ p`: the program performs
  no arithmetic on the floats it stores, so IEEE-754 rounding is
  unobservable here and the exact decimal is a faithful value.
- The dict `latest_data` is an association list of key/value pairs in the
  insertion order of the Python dict literal; values are dynamically typed
  (`PyNum` is an int or a float), matching the initial all-int-zero dict.
- `step` executes one iteration of the `while True` body of `read_serial`
  and returns the new snapshot together with the number of seconds slept
  (`time.sleep(1)` in the `except` handler, else 0).
-/

/-- Python whitespace characters stripped by `int`/`float` around a token
(the ASCII subset: space, tab, newline, carriage return, vertical tab,
form feed). -/
def isPyWs (c : Char) : Bool :=
  c = ' ' || c = '\t' || c = '\n' || c = '\r' || c.toNat = 11 || c.toNat = 12

/-- ASCII decimal digit test. -/
def isPyDigit (c : Char) : Bool :=
  c.isDigit

/-- Strip leading and trailing Python whitespace from a character list. -/
def stripWs (cs : List Char) : List Char :=
  ((cs.dropWhile isPyWs).reverse.dropWhile isPyWs).reverse

/-- Holds when the list contains no two adjacent underscores. -/
def noDoubleUnderscore : List Char → Bool
  | '_' :: '_' :: _ => false
  | _ :: rest => noDoubleUnderscore rest
  | [] => true

/-- CPython `digitpart`: nonempty, starts and ends with a digit, every
character a digit or an underscore, underscores only singly between
digits (regex `[0-9](_?[0-9])*`). -/
def digitGroupOk (cs : List Char) : Bool :=
  (!cs.isEmpty) && cs.all (fun c => isPyDigit c || c = '_')
    && (match cs.head? with | some c => isPyDigit c | none => false)
    && (match cs.getLast? with | some c => isPyDigit c | none => false)
    && noDoubleUnderscore cs

/-- Base-10 value of a digit group, ignoring underscore separators. -/
def digitsVal (cs : List Char) : Nat :=
  cs.foldl (fun a c => if isPyDigit c then a * 10 + (c.toNat - 48) else a) 0

/-- Number of digit characters in a group (underscores excluded). -/
def digitCount (cs : List Char) : Nat :=
  (cs.filter isPyDigit).length

/-- Split off an optional leading sign; returns (isNegative, rest). -/
def splitSign : List Char → Bool × List Char
  | '+' :: rest => (false, rest)
  | '-' :: rest => (true, rest)
  | cs => (false, cs)

/-- Python `int(token)` in base 10: strip whitespace, optional sign,
then a digit group with optional underscore separators; `none` models a
raised `ValueError`. -/
def pyInt (cs : List Char) : Option Int :=
  let stripped := stripWs cs
  let sgn := splitSign stripped
  if digitGroupOk sgn.2 then
    some (if sgn.1 then -(digitsVal sgn.2 : Int) else (digitsVal sgn.2 : Int))
  else
    none

/-- The value a Python float holds after `float(token)`: a finite value
`finite m p` denoting the exact decimal `m * 10 ^ p` the token spelled,
an infinity, or nan. -/
inductive PyFloat where
  | finite (mantissa : Int) (exp10 : Int)
  | inf
  | neginf
  | nan
deriving DecidableEq

/-- The rational number a finite `PyFloat` denotes (`m * 10 ^ p`); the
non-finite values have no rational denotation. -/
def PyFloat.toRat : PyFloat → Option ℚ
  | .finite m p =>
    some (if 0 ≤ p then (m : ℚ) * (10 : ℚ) ^ p.toNat else (m : ℚ) / (10 : ℚ) ^ (-p).toNat)
  | _ => none

/-- Split a list at the first character satisfying `p`: returns the prefix
and, when a split character was found, the remainder after it. -/
def breakAt (p : Char → Bool) : List Char → List Char × Option (List Char)
  | [] => ([], none)
  | c :: rest =>
    if p c then ([], some rest)
    else
      let r := breakAt p rest
      (c :: r.1, r.2)

/-- Parse the CPython float grammar for a finite decimal (after sign
removal): `digitpart [. [digitpart]] | . digitpart`, optionally followed
by `(e or E) [sign] digitpart`; the result is the exact decimal as a
mantissa/power-of-ten pair. -/
def parseDecimal (cs : List Char) : Option (Nat × Int) :=
  let m := breakAt (fun c => c = 'e' || c = 'E') cs
  let eVal : Option Int :=
    match m.2 with
    | none => some 0
    | some ec =>
      let esgn := splitSign ec
      if digitGroupOk esgn.2 then
        some (if esgn.1 then -(digitsVal esgn.2 : Int) else (digitsVal esgn.2 : Int))
      else none
  match eVal with
  | none => none
  | some e =>
    let ip := breakAt (fun c => c = '.') m.1
    match ip.2 with
    | none => if digitGroupOk ip.1 then some (digitsVal ip.1, e) else none
    | some fp =>
      if ip.1.isEmpty then
        if digitGroupOk fp then some (digitsVal fp, e - digitCount fp) else none
      else if digitGroupOk ip.1 then
        if fp.isEmpty then some (digitsVal ip.1, e)
        else if digitGroupOk fp then
          some (digitsVal ip.1 * 10 ^ digitCount fp + digitsVal fp, e - digitCount fp)
        else none
      else none

/-- Python `float(token)`: strip whitespace, optional sign, then either a
case-insensitive `inf`/`infinity`/`nan` spelling or a finite decimal;
`none` models a raised `ValueError`. -/
def pyFloat (cs : List Char) : Option PyFloat :=
  let stripped := stripWs cs
  let sgn := splitSign stripped
  let low := sgn.2.map Char.toLower
  if low = ['i', 'n', 'f'] || low = ['i', 'n', 'f', 'i', 'n', 'i', 't', 'y'] then
    some (if sgn.1 then PyFloat.neginf else PyFloat.inf)
  else if low = ['n', 'a', 'n'] then
    some PyFloat.nan
  else
    match parseDecimal sgn.2 with
    | some mp => some (PyFloat.finite (if sgn.1 then -(mp.1 : Int) else (mp.1 : Int)) mp.2)
    | none => none

/-- Python `line.split(',')`: split on every comma, keeping empty tokens
(so the empty line yields one empty token). -/
def splitOnComma : List Char → List (List Char)
  | [] => [[]]
  | c :: rest =>
    let r := splitOnComma rest
    if c = ',' then [] :: r
    else
      match r with
      | h :: t => (c :: h) :: t
      | [] => [[c]]

/-- A dynamically typed numeric dict value: `int(...)` produces `pint`,
`float(...)` produces `pfloat`; the initial dict holds `pint 0` in every
field. -/
inductive PyNum where
  | pint (n : Int)
  | pfloat (f : PyFloat)
deriving DecidableEq

/-- One fully parsed sensor sample: exactly the five values built on a
successful parse in `read_serial`. -/
structure Reading where
  angle : Int
  distance : PyFloat
  humidity : PyFloat
  temperatureC : PyFloat
  temperatureF : PyFloat
deriving DecidableEq

/-- The shape of `latest_data`: a Python dict modelled as an association
list of key/value pairs in insertion order. -/
abbrev Snapshot := List (String × PyNum)

/-- The dict literal initializing `latest_data`: all five keys map to the
integer 0. -/
def latestDataInit : Snapshot :=
  [("angle", PyNum.pint 0), ("distance", PyNum.pint 0), ("humidity", PyNum.pint 0),
    ("temperatureC", PyNum.pint 0), ("temperatureF", PyNum.pint 0)]

/-- The dict built from a successful parse: `angle` an int, the other four
floats, in the insertion order of the dict literal in `read_serial`. -/
def publish (r : Reading) : Snapshot :=
  [("angle", PyNum.pint r.angle), ("distance", PyNum.pfloat r.distance),
    ("humidity", PyNum.pfloat r.humidity), ("temperatureC", PyNum.pfloat r.temperatureC),
    ("temperatureF", PyNum.pfloat r.temperatureF)]

/-- Outcome of the parsing section of the loop body on one line. -/
inductive ParseResult where
  | ok (r : Reading)
  | wrongCount
  | valueError
deriving DecidableEq

/-- The parsing section of the `read_serial` loop body on a received line:
`parts = line.split(',')`; if `len(parts) == 5`, apply `int` to token 0 and
`float` to tokens 1-4 (`valueError` models an exception raised by one of
them); otherwise nothing happens (`wrongCount`). -/
def parseLine (line : List Char) : ParseResult :=
  let parts := splitOnComma line
  if parts.length = 5 then
    match pyInt (parts.getD 0 []), pyFloat (parts.getD 1 []), pyFloat (parts.getD 2 []),
        pyFloat (parts.getD 3 []), pyFloat (parts.getD 4 []) with
    | some a, some d, some h, some tc, some tf =>
      ParseResult.ok ⟨a, d, h, tc, tf⟩
    | _, _, _, _, _ => ParseResult.valueError
  else ParseResult.wrongCount

/-- What one iteration of the `while True` loop observes: no pending bytes,
a decoded and stripped text line, or an exception from the device access
(port unreachable, read failure, decode failure). -/
inductive SerialEvent where
  | noData
  | line (s : List Char)
  | deviceError
deriving DecidableEq

/-- Seconds slept by `time.sleep(1)` in the `except` handler. -/
def deviceErrorPauseSeconds : Nat := 1

/-- One iteration of the `read_serial` loop body: returns the snapshot
after the iteration and the seconds slept during it. A successful parse
replaces the whole dict; a wrong token count falls through the `if` with
no update and no sleep; a parse `ValueError` and a device error are both
caught by the `except` handler, which leaves the dict unchanged and sleeps
1 second. -/
def step (st : Snapshot) (ev : SerialEvent) : Snapshot × Nat :=
  match ev with
  | SerialEvent.noData => (st, 0)
  | SerialEvent.deviceError => (st, deviceErrorPauseSeconds)
  | SerialEvent.line s =>
    match parseLine s with
    | ParseResult.ok r => (publish r, 0)
    | ParseResult.wrongCount => (st, 0)
    | ParseResult.valueError => (st, deviceErrorPauseSeconds)

/-- The `read_serial` function over a finite trace of events: when `ser`
is `None` it returns immediately and the snapshot is untouched; otherwise
the loop body runs on each event in turn. -/
def read_serial (ser : Option Unit) (st : Snapshot) (evs : List SerialEvent) : Snapshot :=
  match ser with
  | none => st
  | some _ => evs.foldl (fun s ev => (step s ev).1) st

/-- The `/data` accessor `get_data`: serializes the current snapshot and
leaves it unchanged; returns (response value, snapshot after the call). -/
def get_data (st : Snapshot) : Snapshot × Snapshot :=
  (st, st)

/-- Snapshots reachable from the initial dict by iterating the loop body. -/
inductive Reachable : Snapshot → Prop
  | init : Reachable latestDataInit
  | next (st : Snapshot) (ev : SerialEvent) : Reachable st → Reachable (step st ev).1

/-- Holds when an event is not a successfully parsed line (used to state
properties of traces before any successful parse). -/
def eventNoSuccess : SerialEvent → Bool
  | SerialEvent.line s =>
    match parseLine s with
    | ParseResult.ok _ => false
    | _ => true
  | _ => true

/-- Device path passed to `serial.Serial`. -/
def serialPortPath : String := "/dev/cu.usbmodem2101"

/-- Baud rate passed to `serial.Serial`. -/
def serialBaudRate : Nat := 115200

/-- Seconds slept by `time.sleep(2)` right after opening the port. -/
def postOpenSettleDelaySeconds : Nat := 2

/-! ## Helper lemmas -/

/-- A line whose split does not have exactly 5 tokens falls through the
length test. -/
lemma parseLine_wrongCount_of_len (s : List Char) (h : (splitOnComma s).length ≠ 5) :
    parseLine s = ParseResult.wrongCount := by
  simp [parseLine, h]

/-- An iteration whose event is not a successfully parsed line leaves the
snapshot unchanged. -/
lemma step_fst_of_noSuccess (st : Snapshot) (ev : SerialEvent)
    (h : eventNoSuccess ev = true) : (step st ev).1 = st := by
  cases ev with
  | noData => rfl
  | deviceError => rfl
  | line s =>
    cases hp : parseLine s with
    | ok r => simp [eventNoSuccess, hp] at h
    | wrongCount => simp [step, hp]
    | valueError => simp [step, hp]

/-- A trace with no successfully parsed line leaves the snapshot
unchanged. -/
lemma foldl_step_of_noSuccess (evs : List SerialEvent) (st : Snapshot)
    (h : evs.all eventNoSuccess = true) :
    evs.foldl (fun s ev => (step s ev).1) st = st := by
  induction evs generalizing st with
  | nil => rfl
  | cons ev rest ih =>
    rw [List.all_cons, Bool.and_eq_true] at h
    rw [List.foldl_cons, step_fst_of_noSuccess st ev h.1, ih st h.2]

/-! ## Claims -/

/-- C1: a line that splits on the comma into exactly 5 tokens, whose
token 0 parses as an integer and whose tokens 1-4 parse as floats,
replaces the shared snapshot with the reading built from those five
values (and the iteration does not sleep). -/
theorem siren_c1_wellformed_line_publishes
    (st : Snapshot) (s p0 p1 p2 p3 p4 : List Char) (a : Int) (f1 f2 f3 f4 : PyFloat)
    (hs : splitOnComma s = [p0, p1, p2, p3, p4])
    (h0 : pyInt p0 = some a) (h1 : pyFloat p1 = some f1) (h2 : pyFloat p2 = some f2)
    (h3 : pyFloat p3 = some f3) (h4 : pyFloat p4 = some f4) :
    step st (SerialEvent.line s) = (publish ⟨a, f1, f2, f3, f4⟩, 0) := by
  simp [step, parseLine, hs, h0, h1, h2, h3, h4]

/-- Witness for C1 at the concrete line `45,12.5,60.2,22.1,71.8`. -/
theorem siren_c1_wellformed_line_publishes_witness :
    step latestDataInit (SerialEvent.line ("45,12.5,60.2,22.1,71.8".data)) =
      (publish ⟨45, PyFloat.finite 125 (-1), PyFloat.finite 602 (-1),
        PyFloat.finite 221 (-1), PyFloat.finite 718 (-1)⟩, 0) :=
  siren_c1_wellformed_line_publishes latestDataInit ("45,12.5,60.2,22.1,71.8".data)
    ("45".data) ("12.5".data) ("60.2".data) ("22.1".data) ("71.8".data)
    45 (PyFloat.finite 125 (-1)) (PyFloat.finite 602 (-1)) (PyFloat.finite 221 (-1))
    (PyFloat.finite 718 (-1))
    (by decide) (by decide) (by decide) (by decide) (by decide) (by decide)

/-- C2: a line whose split does not yield 5 tokens, or a 5-token line on
which the integer parse of token 0 or a float parse of tokens 1-4 raises,
leaves the shared snapshot exactly as it was. -/
theorem siren_c2_malformed_line_snapshot_unchanged
    (st : Snapshot) (s : List Char)
    (h : (splitOnComma s).length ≠ 5 ∨ parseLine s = ParseResult.valueError) :
    (step st (SerialEvent.line s)).1 = st := by
  rcases h with h | h
  · simp [step, parseLine_wrongCount_of_len s h]
  · simp [step, h]

/-- Witness for C2 at a 3-token line and at a 5-token line with a bad
float token. -/
theorem siren_c2_malformed_line_snapshot_unchanged_witness :
    (step latestDataInit (SerialEvent.line ("45,12.5,60.2".data))).1 = latestDataInit ∧
      (step latestDataInit (SerialEvent.line ("1,x,2,3,4".data))).1 = latestDataInit :=
  ⟨siren_c2_malformed_line_snapshot_unchanged latestDataInit ("45,12.5,60.2".data)
      (Or.inl (by decide)),
    siren_c2_malformed_line_snapshot_unchanged latestDataInit ("1,x,2,3,4".data)
      (Or.inr (by decide))⟩

/-- C3 counterexample: the 5-token line `1,x,2,3,4` is malformed (its
second token fails the float parse, so no reading is produced), yet the
iteration performs the 1-second pause: the `ValueError` raised by
`float` is caught by the same `except` handler as device errors, which
calls `time.sleep(1)`. -/
theorem siren_c3_parse_failure_pauses_counterexample :
    parseLine ("1,x,2,3,4".data) = ParseResult.valueError ∧
      (step latestDataInit (SerialEvent.line ("1,x,2,3,4".data))).2 =
        deviceErrorPauseSeconds ∧
      deviceErrorPauseSeconds ≠ 0 := by
  decide

/-- C3 amended: only a wrong token count proceeds immediately to the next
iteration without a pause; a 5-token line with a failed numeric parse
raises inside the `try` block and incurs the same 1-second pause as a
device-level error. -/
theorem siren_c3_wrong_count_immediate_parse_failure_pauses :
    (∀ (st : Snapshot) (s : List Char), (splitOnComma s).length ≠ 5 →
        step st (SerialEvent.line s) = (st, 0)) ∧
      (∀ (st : Snapshot) (s : List Char), parseLine s = ParseResult.valueError →
        step st (SerialEvent.line s) = (st, deviceErrorPauseSeconds)) := by
  constructor
  · intro st s h
    simp [step, parseLine_wrongCount_of_len s h]
  · intro st s h
    simp [step, h]

/-- Witness for the amended C3 at a 3-token line (no pause) and at a
5-token line with a bad numeric token (1-second pause). -/
theorem siren_c3_wrong_count_immediate_parse_failure_pauses_witness :
    step latestDataInit (SerialEvent.line ("45,12.5,60.2".data)) = (latestDataInit, 0) ∧
      step latestDataInit (SerialEvent.line ("1,x,2,3,4".data)) =
        (latestDataInit, deviceErrorPauseSeconds) :=
  ⟨siren_c3_wrong_count_immediate_parse_failure_pauses.1 latestDataInit
      ("45,12.5,60.2".data) (by decide),
    siren_c3_wrong_count_immediate_parse_failure_pauses.2 latestDataInit
      ("1,x,2,3,4".data) (by decide)⟩

/-- C4: processing one line either keeps the previous snapshot in all five
fields or installs the newly parsed reading in all five fields: the dict
is rebuilt as a whole on success and never mutated field by field, so no
mixed state is reachable from one line. -/
theorem siren_c4_whole_unit_replacement (st : Snapshot) (s : List Char) :
    (step st (SerialEvent.line s)).1 = st ∨
      ∃ r : Reading, parseLine s = ParseResult.ok r ∧
        (step st (SerialEvent.line s)).1 = publish r := by
  cases hp : parseLine s with
  | ok r => exact Or.inr ⟨r, rfl, by simp [step, hp]⟩
  | wrongCount => exact Or.inl (by simp [step, hp])
  | valueError => exact Or.inl (by simp [step, hp])

/-- C5: a device-level error (port unreachable, read failure, decode
failure) is caught by the `except` handler: the snapshot is unchanged and
the iteration sleeps 1 second before the next read attempt. -/
theorem siren_c5_device_error_unchanged_pause (st : Snapshot) :
    step st SerialEvent.deviceError = (st, deviceErrorPauseSeconds) ∧
      deviceErrorPauseSeconds = 1 :=
  ⟨rfl, rfl⟩

/-- C6: before any successfully parsed line, the accessor serves the
all-zero dict; and with no serial device configured, `read_serial`
returns immediately, so after any trace the accessor still serves the
all-zero dict. -/
theorem siren_c6_initial_zero_and_no_device_noop :
    (∀ evs : List SerialEvent, evs.all eventNoSuccess = true →
        (get_data (read_serial (some ()) latestDataInit evs)).1 =
          [("angle", PyNum.pint 0), ("distance", PyNum.pint 0), ("humidity", PyNum.pint 0),
            ("temperatureC", PyNum.pint 0), ("temperatureF", PyNum.pint 0)]) ∧
      (∀ evs : List SerialEvent,
        (get_data (read_serial none latestDataInit evs)).1 =
          [("angle", PyNum.pint 0), ("distance", PyNum.pint 0), ("humidity", PyNum.pint 0),
            ("temperatureC", PyNum.pint 0), ("temperatureF", PyNum.pint 0)]) := by
  constructor
  · intro evs h
    simp [get_data, read_serial, foldl_step_of_noSuccess evs latestDataInit h]
    rfl
  · intro evs
    rfl

/-- Witness for C6 on a concrete no-success trace: a short line, an empty
poll, a device error, and a 5-token line with a bad numeric token. -/
theorem siren_c6_initial_zero_and_no_device_noop_witness :
    (get_data (read_serial (some ()) latestDataInit
        [SerialEvent.line ("45,12.5,60.2".data), SerialEvent.noData,
          SerialEvent.deviceError, SerialEvent.line ("1,x,2,3,4".data)])).1 =
      [("angle", PyNum.pint 0), ("distance", PyNum.pint 0), ("humidity", PyNum.pint 0),
        ("temperatureC", PyNum.pint 0), ("temperatureF", PyNum.pint 0)] :=
  siren_c6_initial_zero_and_no_device_noop.1
    [SerialEvent.line ("45,12.5,60.2".data), SerialEvent.noData,
      SerialEvent.deviceError, SerialEvent.line ("1,x,2,3,4".data)] (by decide)

/-- C7 counterexample: the post-open settle delay in the source is
`time.sleep(2)`, not the 1 second the claim states. -/
theorem siren_c7_settle_delay_counterexample : postOpenSettleDelaySeconds ≠ 1 := by
  decide

/-- C7 amended: the port is opened at the fixed device path with baud rate
115200, and the program then waits 2 seconds as the post-open settle
delay. -/
theorem siren_c7_open_params_and_settle_delay :
    serialPortPath = "/dev/cu.usbmodem2101" ∧ serialBaudRate = 115200 ∧
      postOpenSettleDelaySeconds = 2 :=
  ⟨rfl, rfl, rfl⟩

/-- C8: the accessor is read-only and deterministic in the snapshot: one
call leaves the snapshot unchanged, and a second call with no intervening
publish returns the same value as the first. -/
theorem siren_c8_accessor_idempotent (st : Snapshot) :
    (get_data st).2 = st ∧ (get_data ((get_data st).2)).1 = (get_data st).1 :=
  ⟨rfl, rfl⟩

/-- C9: `int` and `float` accept more than plain decimal literals —
surrounding whitespace, explicit signs, underscore separators, exponent
notation, and case-insensitive nan/inf/infinity — so such lines publish a
reading (possibly with non-finite values) which the accessor then
serves. -/
theorem siren_c9_liberal_parsing_publishes (st : Snapshot) :
    step st (SerialEvent.line ("+4_5, 12.5 ,1e3,NaN,-Infinity".data)) =
        (publish ⟨45, PyFloat.finite 125 (-1), PyFloat.finite 1 3,
          PyFloat.nan, PyFloat.neginf⟩, 0) ∧
      step st (SerialEvent.line ("45,INF,+1_0.2_5e-1,.5,7.".data)) =
        (publish ⟨45, PyFloat.inf, PyFloat.finite 1025 (-3),
          PyFloat.finite 5 (-1), PyFloat.finite 7 0⟩, 0) ∧
      (get_data (publish ⟨45, PyFloat.finite 125 (-1), PyFloat.finite 1 3,
          PyFloat.nan, PyFloat.neginf⟩)).1 =
        publish ⟨45, PyFloat.finite 125 (-1), PyFloat.finite 1 3,
          PyFloat.nan, PyFloat.neginf⟩ := by
  refine ⟨?_, ?_, rfl⟩
  · simp [step, show parseLine ("+4_5, 12.5 ,1e3,NaN,-Infinity".data) =
      ParseResult.ok ⟨45, PyFloat.finite 125 (-1), PyFloat.finite 1 3,
        PyFloat.nan, PyFloat.neginf⟩ from by decide]
  · simp [step, show parseLine ("45,INF,+1_0.2_5e-1,.5,7.".data) =
      ParseResult.ok ⟨45, PyFloat.inf, PyFloat.finite 1025 (-3),
        PyFloat.finite 5 (-1), PyFloat.finite 7 0⟩ from by decide]

/-- C10: every reachable snapshot is a dict with exactly the five keys in
order; it is either the initial dict, whose five values are all the
integer 0, or a published dict, whose angle value is an int and whose
other four values are floats. -/
theorem siren_c10_snapshot_shape_invariant (st : Snapshot) (h : Reachable st) :
    st.map Prod.fst = ["angle", "distance", "humidity", "temperatureC", "temperatureF"] ∧
      (st = [("angle", PyNum.pint 0), ("distance", PyNum.pint 0), ("humidity", PyNum.pint 0),
          ("temperatureC", PyNum.pint 0), ("temperatureF", PyNum.pint 0)] ∨
        ∃ r : Reading,
          st = [("angle", PyNum.pint r.angle), ("distance", PyNum.pfloat r.distance),
            ("humidity", PyNum.pfloat r.humidity), ("temperatureC", PyNum.pfloat r.temperatureC),
            ("temperatureF", PyNum.pfloat r.temperatureF)]) := by
  induction h with
  | init => exact ⟨rfl, Or.inl rfl⟩
  | next st ev hst ih =>
    cases ev with
    | noData => exact ih
    | deviceError => exact ih
    | line s =>
      cases hp : parseLine s with
      | ok r =>
        refine ⟨?_, Or.inr ⟨r, ?_⟩⟩ <;> simp [step, hp, publish]
      | wrongCount => simpa [step, hp] using ih
      | valueError => simpa [step, hp] using ih

/-- Witness for C10 at the initial snapshot, reachable by zero
iterations. -/
theorem siren_c10_snapshot_shape_invariant_witness :
    latestDataInit.map Prod.fst =
        ["angle", "distance", "humidity", "temperatureC", "temperatureF"] ∧
      (latestDataInit = [("angle", PyNum.pint 0), ("distance", PyNum.pint 0),
          ("humidity", PyNum.pint 0), ("temperatureC", PyNum.pint 0),
          ("temperatureF", PyNum.pint 0)] ∨
        ∃ r : Reading,
          latestDataInit = [("angle", PyNum.pint r.angle), ("distance", PyNum.pfloat r.distance),
            ("humidity", PyNum.pfloat r.humidity),
            ("temperatureC", PyNum.pfloat r.temperatureC),
            ("temperatureF", PyNum.pfloat r.temperatureF)]) :=
  siren_c10_snapshot_shape_invariant latestDataInit Reachable.init
